import Mathlib

/-!
Shallow embedding of `src/proxy_server.py` (a minimal CORS relay).

The handler class `ProxyHandler` has four methods: `do_OPTIONS`, `do_POST`,
`send_cors_headers`, `send_error_response`.  Responses are modelled as a
record holding the status code passed to `send_response`, the list of
headers sent by the handler itself through `send_header` (in order; the
stdlib base class additionally emits Server and Date headers on every
response, which are not sent by this code and are not modelled), and the
JSON value whose `json.dumps` serialization is written to `wfile`
(`none` when no body is written).

Calls into the Python standard library (`json.loads`, `urllib.request.urlopen`,
`bytes.decode`) are effectful or out of scope, so they enter the embedding as
oracle fields of an `Env` record; `int(...)`, `rfile.read(...)` and dict
subscripting are modelled concretely below, following CPython semantics.
-/

namespace ProxyServer

/-- A parsed JSON value, as produced by the `json.loads` call in `do_POST`.
`obj` models the Python dict resulting from parsing (keys already unique,
so association-list lookup is dict lookup).  Numbers carry an `Int`; no
claim inspects numeric values. -/
inductive Json where
  | null
  | bool (b : Bool)
  | num (n : Int)
  | str (s : String)
  | arr (elems : List Json)
  | obj (fields : List (String × Json))

/-- A single apostrophe character, used when rendering CPython error strings. -/
def squote : String := (Char.ofNat 39).toString

/-- CPython `json.JSONDecodeError`: carries the short message and the
position where parsing failed. -/
structure JSONDecodeError where
  msg : String
  lineno : Nat
  colno : Nat
  pos : Nat

/-- `str(e)` for a `json.JSONDecodeError`: CPython renders it as
`"%s: line %d column %d (char %d)" % (msg, lineno, colno, pos)`. -/
def JSONDecodeError.toStr (e : JSONDecodeError) : String :=
  e.msg ++ ": line " ++ toString e.lineno ++ " column " ++ toString e.colno ++
    " (char " ++ toString e.pos ++ ")"

/-- CPython `urllib.error.URLError`: carries a `reason`. -/
structure URLError where
  reason : String

/-- `str(e)` for a `URLError`: CPython renders `"<urlopen error %s>" % reason`. -/
def URLError.toStr (e : URLError) : String :=
  "<urlopen error " ++ e.reason ++ ">"

/-- CPython `UnicodeDecodeError` for the utf-8 codec: the failing byte range
and a reason. -/
structure UnicodeDecodeError where
  reason : String
  start : Nat
  stop : Nat

/-- `str(e)` for a utf-8 `UnicodeDecodeError`, following CPython's rendering
`"'utf-8' codec can't decode bytes in position %d-%d: %s"`. -/
def UnicodeDecodeError.toStr (e : UnicodeDecodeError) : String :=
  squote ++ "utf-8" ++ squote ++ " codec can" ++ squote ++ "t decode bytes in position " ++
    toString e.start ++ "-" ++ toString (e.stop - 1) ++ ": " ++ e.reason

/-- A Python exception as observed by the two `except` clauses of `do_POST`.
Both clauses only ever call `str(e)`, so the model records each exception
kind together with enough data to render its `str`. -/
inductive PyErr where
  | typeError (msg : String)
  | valueError (msg : String)
  | keyError (key : String)
  | jsonDecode (e : JSONDecodeError)
  | urlError (e : URLError)
  | unicodeDecode (e : UnicodeDecodeError)
  | other (msg : String)

/-- `str(e)` for each modelled exception.  CPython renders
`str(KeyError(k))` as `repr(k)`, i.e. the key in single quotes. -/
def PyErr.str : PyErr → String
  | .typeError m => m
  | .valueError m => m
  | .keyError k => squote ++ k ++ squote
  | .jsonDecode e => e.toStr
  | .urlError e => e.toStr
  | .unicodeDecode e => e.toStr
  | .other m => m

/-- Whitespace stripped by CPython `int(str)`: space, tab, newline,
carriage return, vertical tab, form feed. -/
def isPySpace (c : Char) : Bool :=
  c = ' ' || c = Char.ofNat 9 || c = Char.ofNat 10 || c = Char.ofNat 13 ||
  c = Char.ofNat 11 || c = Char.ofNat 12

/-- Accumulate decimal digits, allowing a single underscore between two
digits (CPython numeric-literal rule for `int(str)`). -/
def intDigits : List Char → Nat → Option Nat
  | [], acc => some acc
  | c :: cs, acc =>
    if c.isDigit then intDigits cs (acc * 10 + (c.toNat - 48))
    else if c = '_' then
      match cs with
      | c2 :: cs2 =>
        if c2.isDigit then intDigits cs2 (acc * 10 + (c2.toNat - 48)) else none
      | [] => none
    else none

/-- Parse a nonempty run of decimal digits (with CPython's underscore rule);
`none` when the run is empty or malformed. -/
def parseUnsigned : List Char → Option Nat
  | [] => none
  | c :: cs => if c.isDigit then intDigits cs (c.toNat - 48) else none

/-- CPython `int(s)` for a string argument: strip whitespace, optional sign,
decimal digits.  On failure raises
`ValueError("invalid literal for int() with base 10: %r" % s)`. -/
def pyIntOfString (s : String) : Except PyErr Int :=
  let t := ((s.toList.dropWhile isPySpace).reverse.dropWhile isPySpace).reverse
  let res : Option Int :=
    match t with
    | [] => none
    | c :: cs =>
      if c = '+' then (parseUnsigned cs).map Int.ofNat
      else if c = '-' then (parseUnsigned cs).map (fun n => -(Int.ofNat n))
      else (parseUnsigned (c :: cs)).map Int.ofNat
  match res with
  | some n => .ok n
  | none =>
    .error (.valueError
      ("invalid literal for int() with base 10: " ++ squote ++ s ++ squote))

/-- The exception raised by `int(None)`: in `do_POST`,
`self.headers["Content-Length"]` yields `None` when the header is absent,
and `int(None)` raises this `TypeError`. -/
def noContentLengthErr : PyErr :=
  .typeError ("int() argument must be a string, a bytes-like object or a real number, not "
    ++ squote ++ "NoneType" ++ squote)

/-- `int(self.headers["Content-Length"])` (proxy_server.py line 16):
a missing header gives `None`, hence a `TypeError`; a present header is a
string handed to `int`. -/
def contentLengthInt (h : Option String) : Except PyErr Int :=
  match h with
  | none => .error noContentLengthErr
  | some s => pyIntOfString s

/-- `self.rfile.read(n)` (proxy_server.py line 17): a nonnegative count
reads exactly that many bytes off the stream (the socket blocks until they
arrive, so the model takes them from the stream); a negative count makes
`BufferedReader.read` read to end of stream. -/
def pyRead (stream : List Nat) (n : Int) : List Nat :=
  if n < 0 then stream else stream.take n.toNat

/-- Python subscripting `v["url"]` as applied on proxy_server.py line 18 to
the value returned by `json.loads`: dict lookup with `KeyError` when the key
is absent, and a `TypeError` on every non-dict value. -/
def pySubscript (v : Json) (key : String) : Except PyErr Json :=
  match v with
  | .obj fields =>
    match fields.lookup key with
    | some x => .ok x
    | none => .error (.keyError key)
  | .arr _ => .error (.typeError "list indices must be integers or slices, not str")
  | .str _ => .error (.typeError "string indices must be integers")
  | .num _ => .error (.typeError (squote ++ "int" ++ squote ++ " object is not subscriptable"))
  | .bool _ => .error (.typeError (squote ++ "bool" ++ squote ++ " object is not subscriptable"))
  | .null => .error (.typeError (squote ++ "NoneType" ++ squote ++ " object is not subscriptable"))

/-- An outbound request as built by `urllib.request.Request(url, headers=headers)`
on proxy_server.py line 26: the target url and the explicitly set headers. -/
structure UrlRequest where
  url : String
  headers : List (String × String)

/-- The `headers` dict built on proxy_server.py lines 21-23: the single
fixed browser-identifying User-Agent entry. -/
def requestHeaders : List (String × String) :=
  [("User-Agent",
    "Mozilla/5.0 (Windows NT 10.0; Win64; x64) AppleWebKit/537.36 (KHTML, like Gecko) Chrome/91.0.4472.124 Safari/537.36")]

/-- `urllib.request.Request(url, headers=hs)`: with a string url the request
object is built; with any non-string value `urllib` raises while normalizing
the url (CPython: `AttributeError` from `url.strip()`), modelled as a
generic exception. -/
def mkRequest (u : Json) (hs : List (String × String)) : Except PyErr UrlRequest :=
  match u with
  | .str s => .ok { url := s, headers := hs }
  | _ => .error (.other (squote ++ "Json" ++ squote ++ " object has no attribute "
      ++ squote ++ "strip" ++ squote))

/-- The effectful context of one `do_POST` call: the inbound Content-Length
header value, the bytes available on the request stream, and oracles for the
three stdlib calls the handler makes (`json.loads`,
`urllib.request.urlopen`, `bytes.decode("utf-8")`).  Each oracle returns
either the call's value or the exception CPython would raise. -/
structure Env where
  contentLengthHeader : Option String
  rfile : List Nat
  jsonLoads : List Nat → Except JSONDecodeError Json
  urlopen : UrlRequest → Except PyErr (List Nat)
  utf8Decode : List Nat → Except UnicodeDecodeError String

/-- One HTTP response as assembled by the handler: the code passed to
`send_response`, the headers sent via `send_header` in order, and the JSON
value written to `wfile` (as the argument of `json.dumps`). -/
structure Response where
  statusCode : Nat
  headers : List (String × String)
  body : Option Json

/-- `send_cors_headers` (proxy_server.py lines 48-51): the three headers it
sends, in order. -/
def send_cors_headers : List (String × String) :=
  [("Access-Control-Allow-Origin", "*"),
   ("Access-Control-Allow-Methods", "GET, POST, OPTIONS"),
   ("Access-Control-Allow-Headers", "Content-Type")]

/-- `do_OPTIONS` (proxy_server.py lines 8-11): status 200, the CORS headers,
no body.  The request path is not consulted, so the response is constant in
it. -/
def do_OPTIONS (_path : String) : Response :=
  { statusCode := 200, headers := send_cors_headers, body := none }

/-- `send_error_response` (proxy_server.py lines 53-62): status 500, CORS
headers plus Content-Type, and the dumped error object. -/
def send_error_response (error_message : String) : Response :=
  { statusCode := 500,
    headers := send_cors_headers ++ [("Content-Type", "application/json")],
    body := some (.obj [("status", .str "error"), ("message", .str error_message)]) }

/-- The success response assembled on proxy_server.py lines 31-41: status
200, CORS headers plus Content-Type, and the dumped content object.  In the
source this tail of the `try` block runs after the decode and involves no
further fallible step. -/
def successResponse (website_content : String) : Response :=
  { statusCode := 200,
    headers := send_cors_headers ++ [("Content-Type", "application/json")],
    body := some (.obj [("content", .str website_content), ("status", .str "success")]) }

/-- Lines 26-28 of the `try` block: perform the outbound fetch for a built
request and decode the fetched bytes as UTF-8. -/
def fetchStage (env : Env) (req : UrlRequest) : Except PyErr String :=
  match env.urlopen req with
  | .error e => .error e
  | .ok bs =>
    match env.utf8Decode bs with
    | .error e => .error (.unicodeDecode e)
    | .ok s => .ok s

/-- Lines 18-28 of the `try` block, after the body bytes are in hand: parse
JSON, subscript `url`, build the outbound request with the fixed headers,
fetch and decode. -/
def parseStage (env : Env) (post_data : List Nat) : Except PyErr String :=
  match env.jsonLoads post_data with
  | .error e => .error (.jsonDecode e)
  | .ok j =>
    match pySubscript j "url" with
    | .error e => .error e
    | .ok u =>
      match mkRequest u requestHeaders with
      | .error e => .error e
      | .ok req => fetchStage env req

/-- The whole `try` block of `do_POST` (proxy_server.py lines 14-41) up to
the decoded `website_content`: read `int(Content-Length)` bytes, then
`parseStage`. -/
def do_POST_try (env : Env) : Except PyErr String :=
  match contentLengthInt env.contentLengthHeader with
  | .error e => .error e
  | .ok content_length => parseStage env (pyRead env.rfile content_length)

/-- `do_POST` (proxy_server.py lines 13-46).  The two `except` clauses
(`URLError` on line 43 and `Exception` on line 45) both perform the
identical call `send_error_response(str(e))`, so a single error branch
models both. -/
def do_POST (env : Env) : Response :=
  match do_POST_try env with
  | .ok website_content => successResponse website_content
  | .error e => send_error_response e.str

/-- A response carries each of the three CORS headers exactly once. -/
def corsOnce (r : Response) : Prop :=
  r.headers.count ("Access-Control-Allow-Origin", "*") = 1 ∧
  r.headers.count ("Access-Control-Allow-Methods", "GET, POST, OPTIONS") = 1 ∧
  r.headers.count ("Access-Control-Allow-Headers", "Content-Type") = 1

/-- ASCII bytes of a string, used to build concrete request streams. -/
def asciiBytes (s : String) : List Nat := s.toList.map Char.toNat

/-- A concrete environment for the success path: Content-Length 19, the
19-byte body, and oracles answering as CPython would for the body
`\x7b"url": "http://x"\x7d` and a remote resource whose body is `Hello`. -/
def demoEnv : Env :=
  { contentLengthHeader := some "19",
    rfile := asciiBytes "\x7b\"url\": \"http://x\"\x7d",
    jsonLoads := fun _ => .ok (.obj [("url", .str "http://x")]),
    urlopen := fun _ => .ok (asciiBytes "Hello"),
    utf8Decode := fun _ => .ok "Hello" }

/-- A concrete environment whose inbound request has no Content-Length
header. -/
def badEnv : Env :=
  { contentLengthHeader := none,
    rfile := [],
    jsonLoads := fun _ => .error { msg := "Expecting value", lineno := 1, colno := 1, pos := 0 },
    urlopen := fun _ => .error (.urlError { reason := "[Errno 111] Connection refused" }),
    utf8Decode := fun _ => .error { reason := "invalid start byte", start := 0, stop := 1 } }

/-- A concrete environment whose 8-byte body `not json` fails JSON parsing. -/
def invalidJsonEnv : Env :=
  { contentLengthHeader := some "8",
    rfile := asciiBytes "not json",
    jsonLoads := fun _ => .error { msg := "Expecting value", lineno := 1, colno := 1, pos := 0 },
    urlopen := fun _ => .ok [],
    utf8Decode := fun _ => .ok "" }

/-- A concrete environment whose body parses to the empty JSON object, so
the `url` key is absent. -/
def missingUrlEnv : Env :=
  { contentLengthHeader := some "2",
    rfile := asciiBytes "\x7b\x7d",
    jsonLoads := fun _ => .ok (.obj []),
    urlopen := fun _ => .ok [],
    utf8Decode := fun _ => .ok "" }

/-- A concrete environment where the remote resource's body is the two
bytes 255 254, which are not valid UTF-8. -/
def binaryEnv : Env :=
  { contentLengthHeader := some "19",
    rfile := asciiBytes "\x7b\"url\": \"http://x\"\x7d",
    jsonLoads := fun _ => .ok (.obj [("url", .str "http://x")]),
    urlopen := fun _ => .ok [255, 254],
    utf8Decode := fun _ => .error { reason := "invalid start byte", start := 0, stop := 1 } }

/-- A concrete environment whose 2-byte body `[]` parses to a JSON array,
not an object. -/
def nonObjEnv : Env :=
  { contentLengthHeader := some "2",
    rfile := asciiBytes "[]",
    jsonLoads := fun _ => .ok (.arr []),
    urlopen := fun _ => .ok [],
    utf8Decode := fun _ => .ok "" }

/-- A string whose final appended piece is nonempty is nonempty. -/
theorem append_ne_empty_right (a b : String) (hb : b.data ≠ []) : a ++ b ≠ "" := by
  intro h
  apply hb
  have hd := congrArg String.data h
  rw [String.data_append] at hd
  exact (List.append_eq_nil.mp hd).2

/-- The rendered message of a `json.JSONDecodeError` is never empty: it
always ends with the positional suffix. -/
theorem JSONDecodeError.toStr_ne_empty (e : JSONDecodeError) : e.toStr ≠ "" := by
  unfold JSONDecodeError.toStr
  exact append_ne_empty_right _ _ (by decide)

/-- Claim C1: a POST whose body is valid JSON of shape `\x7b"url": U\x7d`,
where fetching U yields bytes that decode to T, is answered with status 200,
Content-Type application/json, and body content T, status success. -/
theorem post_success_roundtrip (env : Env) (n : Int) (j : Json) (u : String)
    (bs : List Nat) (T : String)
    (hlen : contentLengthInt env.contentLengthHeader = .ok n)
    (hjson : env.jsonLoads (pyRead env.rfile n) = .ok j)
    (hurl : pySubscript j "url" = .ok (.str u))
    (hfetch : env.urlopen { url := u, headers := requestHeaders } = .ok bs)
    (hdec : env.utf8Decode bs = .ok T) :
    do_POST env =
      { statusCode := 200,
        headers := send_cors_headers ++ [("Content-Type", "application/json")],
        body := some (.obj [("content", .str T), ("status", .str "success")]) } := by
  have h : do_POST_try env = .ok T := by
    simp [do_POST_try, parseStage, fetchStage, mkRequest, hlen, hjson, hurl, hfetch, hdec]
  simp [do_POST, h, successResponse]

/-- Witness for C1 at a concrete environment. -/
theorem post_success_roundtrip_witness :
    do_POST demoEnv =
      { statusCode := 200,
        headers := send_cors_headers ++ [("Content-Type", "application/json")],
        body := some (.obj [("content", .str "Hello"), ("status", .str "success")]) } :=
  post_success_roundtrip demoEnv 19 (.obj [("url", .str "http://x")]) "http://x"
    (asciiBytes "Hello") "Hello" rfl rfl rfl rfl rfl

/-- Claim C2: every failure of the `try` block, from any stage, becomes the
single uniform 500 response produced by `send_error_response` applied to
the rendered error, with body status `error` and the message derived from
the error; no other response shape occurs on failure. -/
theorem post_error_uniform (env : Env) (e : PyErr)
    (h : do_POST_try env = .error e) :
    do_POST env = send_error_response e.str ∧
    (do_POST env).statusCode = 500 ∧
    (do_POST env).body =
      some (.obj [("status", .str "error"), ("message", .str e.str)]) := by
  refine ⟨?_, ?_, ?_⟩ <;> simp [do_POST, h, send_error_response]

/-- Witness for C2: a POST with no Content-Length header. -/
theorem post_error_uniform_witness :
    do_POST badEnv = send_error_response noContentLengthErr.str :=
  (post_error_uniform badEnv noContentLengthErr rfl).1

/-- Claim C3: the success path, the error path and the OPTIONS path all
emit each of the three CORS headers exactly once. -/
theorem responses_cors_once (env : Env) (p : String) :
    corsOnce (do_OPTIONS p) ∧ corsOnce (do_POST env) := by
  constructor
  · exact ⟨rfl, rfl, rfl⟩
  · cases h : do_POST_try env with
    | ok c =>
      simp only [do_POST, h]
      exact ⟨rfl, rfl, rfl⟩
    | error e =>
      simp only [do_POST, h]
      exact ⟨rfl, rfl, rfl⟩

/-- Claim C4: the handler hands exactly the first `Content-Length` bytes of
the stream to the parse stage, and a missing or invalid Content-Length makes
the whole request fail with the generic error response. -/
theorem post_reads_content_length (env : Env) :
    (∀ n : Int, contentLengthInt env.contentLengthHeader = .ok n →
      do_POST_try env = parseStage env (pyRead env.rfile n) ∧
      (0 ≤ n → n.toNat ≤ env.rfile.length → (pyRead env.rfile n).length = n.toNat)) ∧
    (∀ e : PyErr, contentLengthInt env.contentLengthHeader = .error e →
      do_POST env = send_error_response e.str) := by
  constructor
  · intro n hn
    constructor
    · simp [do_POST_try, hn]
    · intro h0 hle
      have hnot : ¬ n < 0 := by omega
      simp [pyRead, hnot, List.length_take]
      omega
  · intro e he
    simp [do_POST, do_POST_try, he, send_error_response]

/-- Witness for C4: the success environment reads its 19 body bytes, and the
environment lacking Content-Length gets the generic error response. -/
theorem post_reads_content_length_witness :
    do_POST_try demoEnv = parseStage demoEnv (pyRead demoEnv.rfile 19) ∧
    (pyRead demoEnv.rfile 19).length = (19 : Int).toNat ∧
    do_POST badEnv = send_error_response noContentLengthErr.str :=
  ⟨((post_reads_content_length demoEnv).1 19 rfl).1,
   ((post_reads_content_length demoEnv).1 19 rfl).2 (by decide) (by decide),
   (post_reads_content_length badEnv).2 noContentLengthErr rfl⟩

/-- Claim C5: a POST whose body is not valid JSON gets status 500 with body
status `error` and a nonempty message. -/
theorem invalid_json_error (env : Env) (n : Int) (e : JSONDecodeError)
    (hlen : contentLengthInt env.contentLengthHeader = .ok n)
    (hjson : env.jsonLoads (pyRead env.rfile n) = .error e) :
    (do_POST env).statusCode = 500 ∧
    (do_POST env).body =
      some (.obj [("status", .str "error"), ("message", .str e.toStr)]) ∧
    e.toStr ≠ "" := by
  have h : do_POST_try env = .error (.jsonDecode e) := by
    simp [do_POST_try, parseStage, hlen, hjson]
  exact ⟨by simp [do_POST, h, send_error_response, PyErr.str],
         by simp [do_POST, h, send_error_response, PyErr.str],
         e.toStr_ne_empty⟩

/-- Witness for C5: the 8-byte body `not json`. -/
theorem invalid_json_error_witness :
    (do_POST invalidJsonEnv).statusCode = 500 ∧
    (do_POST invalidJsonEnv).body =
      some (.obj [("status", .str "error"),
        ("message", .str (JSONDecodeError.toStr
          { msg := "Expecting value", lineno := 1, colno := 1, pos := 0 }))]) ∧
    JSONDecodeError.toStr { msg := "Expecting value", lineno := 1, colno := 1, pos := 0 } ≠ "" :=
  invalid_json_error invalidJsonEnv 8
    { msg := "Expecting value", lineno := 1, colno := 1, pos := 0 } rfl rfl

/-- Claim C6: a POST whose body is a valid JSON object without a `url` key
gets status 500 with body status `error` (the dict subscript raises
`KeyError`). -/
theorem missing_url_error (env : Env) (n : Int) (fields : List (String × Json))
    (hlen : contentLengthInt env.contentLengthHeader = .ok n)
    (hjson : env.jsonLoads (pyRead env.rfile n) = .ok (.obj fields))
    (hmiss : fields.lookup "url" = none) :
    (do_POST env).statusCode = 500 ∧
    do_POST env = send_error_response (PyErr.keyError "url").str := by
  have h : do_POST_try env = .error (.keyError "url") := by
    simp [do_POST_try, parseStage, pySubscript, hlen, hjson, hmiss]
  exact ⟨by simp [do_POST, h, send_error_response], by simp [do_POST, h]⟩

/-- Witness for C6: the body `\x7b\x7d`. -/
theorem missing_url_error_witness :
    (do_POST missingUrlEnv).statusCode = 500 ∧
    do_POST missingUrlEnv = send_error_response (PyErr.keyError "url").str :=
  missing_url_error missingUrlEnv 2 [] rfl rfl rfl

/-- Claim C7: an OPTIONS request to any path gets status 200, the three CORS
headers exactly once, and no body. -/
theorem options_response (p : String) :
    do_OPTIONS p = { statusCode := 200, headers := send_cors_headers, body := none } ∧
    corsOnce (do_OPTIONS p) ∧ (do_OPTIONS p).body = none :=
  ⟨rfl, ⟨rfl, rfl, rfl⟩, rfl⟩

/-- Claim C8: when the fetch succeeds but the remote bytes are not valid
UTF-8, the decode raises and the whole request becomes the 500 error
response; the body is the error object, so no partial content is
returned. -/
theorem utf8_decode_failure (env : Env) (n : Int) (j : Json) (u : String)
    (bs : List Nat) (e : UnicodeDecodeError)
    (hlen : contentLengthInt env.contentLengthHeader = .ok n)
    (hjson : env.jsonLoads (pyRead env.rfile n) = .ok j)
    (hurl : pySubscript j "url" = .ok (.str u))
    (hfetch : env.urlopen { url := u, headers := requestHeaders } = .ok bs)
    (hdec : env.utf8Decode bs = .error e) :
    do_POST env = send_error_response e.toStr ∧
    (do_POST env).statusCode = 500 ∧
    (do_POST env).body =
      some (.obj [("status", .str "error"), ("message", .str e.toStr)]) := by
  have h : do_POST_try env = .error (.unicodeDecode e) := by
    simp [do_POST_try, parseStage, fetchStage, mkRequest, hlen, hjson, hurl, hfetch, hdec]
  refine ⟨?_, ?_, ?_⟩ <;> simp [do_POST, h, send_error_response, PyErr.str]

/-- Witness for C8: a remote body of bytes 255 254. -/
theorem utf8_decode_failure_witness :
    do_POST binaryEnv =
      send_error_response (UnicodeDecodeError.toStr
        { reason := "invalid start byte", start := 0, stop := 1 }) :=
  (utf8_decode_failure binaryEnv 19 (.obj [("url", .str "http://x")]) "http://x"
    [255, 254] { reason := "invalid start byte", start := 0, stop := 1 }
    rfl rfl rfl rfl rfl).1

/-- Claim C9: once a `url` string is extracted, the rest of the handler is
exactly the fetch of the request built from that url and the constant
header list, which consists of the single fixed User-Agent entry,
independent of the inbound request. -/
theorem outbound_request_fixed_headers (env : Env) (n : Int) (j : Json) (u : String)
    (hlen : contentLengthInt env.contentLengthHeader = .ok n)
    (hjson : env.jsonLoads (pyRead env.rfile n) = .ok j)
    (hurl : pySubscript j "url" = .ok (.str u)) :
    do_POST_try env = fetchStage env { url := u, headers := requestHeaders } ∧
    requestHeaders = [("User-Agent",
      "Mozilla/5.0 (Windows NT 10.0; Win64; x64) AppleWebKit/537.36 (KHTML, like Gecko) Chrome/91.0.4472.124 Safari/537.36")] ∧
    requestHeaders.length = 1 := by
  refine ⟨?_, rfl, rfl⟩
  simp [do_POST_try, parseStage, mkRequest, hlen, hjson, hurl]

/-- Witness for C9 at the concrete success environment. -/
theorem outbound_request_fixed_headers_witness :
    do_POST_try demoEnv = fetchStage demoEnv { url := "http://x", headers := requestHeaders } :=
  (outbound_request_fixed_headers demoEnv 19 (.obj [("url", .str "http://x")])
    "http://x" rfl rfl rfl).1

/-- Claim C10: a POST whose body parses to a non-object JSON value still
gets the uniform 500 error response: the subscript raises `TypeError`,
which the catch-all converts like every other failure. -/
theorem non_object_json_error (env : Env) (n : Int) (j : Json)
    (hlen : contentLengthInt env.contentLengthHeader = .ok n)
    (hjson : env.jsonLoads (pyRead env.rfile n) = .ok j)
    (hnotobj : ∀ fields, j ≠ .obj fields) :
    (do_POST env).statusCode = 500 ∧
    ∃ m, do_POST env = send_error_response m ∧
      (do_POST env).body =
        some (.obj [("status", .str "error"), ("message", .str m)]) := by
  obtain ⟨e, he⟩ : ∃ e, pySubscript j "url" = .error e := by
    cases j with
    | obj fields => exact absurd rfl (hnotobj fields)
    | arr xs => exact ⟨_, rfl⟩
    | str s => exact ⟨_, rfl⟩
    | num k => exact ⟨_, rfl⟩
    | bool b => exact ⟨_, rfl⟩
    | null => exact ⟨_, rfl⟩
  have h : do_POST_try env = .error e := by
    simp [do_POST_try, parseStage, hlen, hjson, he]
  exact ⟨by simp [do_POST, h, send_error_response],
    ⟨e.str, by simp [do_POST, h], by simp [do_POST, h, send_error_response]⟩⟩

/-- Witness for C10: the body `[]`, a JSON array. -/
theorem non_object_json_error_witness :
    (do_POST nonObjEnv).statusCode = 500 :=
  (non_object_json_error nonObjEnv 2 (.arr []) rfl rfl (fun _ h => nomatch h)).1

end ProxyServer
